import Mathlib

/-!
Shallow embedding of the spark-partition-server package
(`spark_partition_server/coordinator.py`, `cluster.py`, `partition_server.py`).

Python dicts keyed by partition index are modelled as association lists with
replace-on-insert semantics; Python `None`-or-value fields are `Option`;
Python truthiness of optional strings and integers is modelled explicitly;
HTTP calls made via `requests.post` are modelled by an oracle
`post : Request → Except Unit Nat` returning either a network error
(an exception in Python) or an HTTP status code. Verbose printing is pure
output and is omitted.
-/

namespace SparkPartitionServer

/-- Python truthiness of an optional string: `None` and the empty string are falsy. -/
def strTruthy : Option String → Bool
  | none => false
  | some s => s != ""

/-- Python truthiness of an optional integer: `None` and `0` are falsy. -/
def natOptTruthy : Option Nat → Bool
  | none => false
  | some n => n != 0

/-- Python `==` between an optional integer (possibly `None`) and an integer:
`None == n` is `False` in Python. -/
def pyEqOptNat : Option Nat → Nat → Bool
  | none, _ => false
  | some m, n => m == n

/-- A host, port pair as stored in `Coordinator.hosts`. -/
structure Address where
  host : String
  port : Nat
deriving DecidableEq, Repr

/-- Python dict assignment `d[k] = v`: replace the binding if the key is
present, append otherwise. -/
def dictInsert (k : Nat) (v : Address) : List (Nat × Address) → List (Nat × Address)
  | [] => [(k, v)]
  | (k1, v1) :: rest => if k = k1 then (k, v) :: rest else (k1, v1) :: dictInsert k v rest

/-- Python dict lookup `d[k]` / membership test `k in d`. -/
def dictGet (k : Nat) : List (Nat × Address) → Option Address
  | [] => none
  | (k1, v1) :: rest => if k = k1 then some v1 else dictGet k rest

/-- Python `del d[k]`. -/
def dictRemove (k : Nat) : List (Nat × Address) → List (Nat × Address)
  | [] => []
  | (k1, v1) :: rest => if k = k1 then rest else (k1, v1) :: dictRemove k rest

/-- The event dict passed to `register_callback` in `coordinator.py`. -/
structure RegistrationEvent where
  partition_ind : Nat
  old_entry : Option Address
  new_entry : Address
  full_cluster : Option Bool
deriving DecidableEq, Repr

/-- State of a `Coordinator` (`coordinator.py`): the awaited partition count,
the cluster token, the hosts dict, the tri-valued `full_cluster` flag
(`none` = Python `None`), and whether a `register_callback` has been set. -/
structure Coordinator where
  await_partitions : Option Nat
  token : Option String
  hosts : List (Nat × Address)
  full_cluster : Option Bool
  register_callback_set : Bool
deriving DecidableEq, Repr

/-- `Coordinator.__init__`: empty hosts dict, no callback, and
`full_cluster = False if await_partitions else None`. -/
def Coordinator.init (await_partitions : Option Nat) (token : Option String) : Coordinator :=
  { await_partitions := await_partitions
    token := token
    hosts := []
    full_cluster := if natOptTruthy await_partitions then some false else none
    register_callback_set := false }

/-- `Coordinator.set_register_callback`. -/
def Coordinator.set_register_callback (c : Coordinator) : Coordinator :=
  { c with register_callback_set := true }

/-- The `/register` POST route of `coordinator.py`. Returns the updated
coordinator state, the HTTP status code, and the event delivered to the
registration callback (if one is set). The token check
`if self.token and self.token != request.args.get('token')` rejects with 403
before touching any state; on success the hosts dict is updated, then
`full_cluster` is set to `True` when `self.await_partitions == len(self.hosts)`,
and only then is the callback invoked. -/
def Coordinator.register (c : Coordinator) (presented : Option String)
    (partition : Nat) (host : String) (port : Nat) :
    Coordinator × Nat × Option RegistrationEvent :=
  if strTruthy c.token = true ∧ c.token ≠ presented then
    (c, 403, none)
  else
    let old_entry := dictGet partition c.hosts
    let hosts1 := dictInsert partition ⟨host, port⟩ c.hosts
    let full1 := if pyEqOptNat c.await_partitions hosts1.length = true
      then some true else c.full_cluster
    let ev : Option RegistrationEvent :=
      if c.register_callback_set then
        some { partition_ind := partition, old_entry := old_entry
               new_entry := ⟨host, port⟩, full_cluster := full1 }
      else none
    ({ c with hosts := hosts1, full_cluster := full1 }, 200, ev)

/-- The JSON body of the `/status` GET route. -/
structure StatusReport where
  expected_partitions : Option Nat
  current_partitions : Nat
  full_cluster : Option Bool
deriving DecidableEq, Repr

/-- The `/status` GET route of `coordinator.py`. -/
def Coordinator.status (c : Coordinator) : StatusReport :=
  { expected_partitions := c.await_partitions
    current_partitions := c.hosts.length
    full_cluster := c.full_cluster }

/-- The shutdown control request sent by `Coordinator.shutdown_host`:
target host and port of `http://host:port/control/shutdown`, and the query
token appended when `self.token` is truthy. -/
structure ShutdownRequest where
  host : String
  port : Nat
  token : Option String
deriving DecidableEq, Repr

/-- `Coordinator.shutdown_host(ind)`: no-op when `ind` is not a key of the
hosts dict; otherwise build the shutdown URL (with the token when configured),
perform `requests.post(url)` — whose network failure is a Python exception
that propagates, modelled as `Except.error` — and only after the post
completes execute `del self.hosts[ind]`. Also returns the request sent, if
any. -/
def Coordinator.shutdown_host (c : Coordinator)
    (post : ShutdownRequest → Except Unit Nat) (ind : Nat) :
    Except Unit (Coordinator × Option ShutdownRequest) :=
  match dictGet ind c.hosts with
  | none => Except.ok (c, none)
  | some addr =>
      let req : ShutdownRequest :=
        { host := addr.host, port := addr.port
          token := if strTruthy c.token then c.token else none }
      match post req with
      | Except.error e => Except.error e
      | Except.ok _ => Except.ok ({ c with hosts := dictRemove ind c.hosts }, some req)

/-- `Coordinator.shutdown_hosts()`: snapshot the keys of the hosts dict
(`copy.copy(self.hosts)`), run `shutdown_host` for each key of the snapshot in
its own thread — an exception raised inside a thread terminates only that
thread, so it is swallowed at the per-key level — join all threads, then reset
`self.hosts = {}` and `full_cluster` to its initial value. -/
def Coordinator.shutdown_hosts (c : Coordinator)
    (post : ShutdownRequest → Except Unit Nat) : Coordinator :=
  let snapshot := c.hosts.map Prod.fst
  let afterFan := snapshot.foldl (fun st ind =>
      match st.shutdown_host post ind with
      | Except.ok r => r.1
      | Except.error _ => st) c
  { afterFan with
    hosts := []
    full_cluster := if natOptTruthy afterFan.await_partitions then some false else none }

/-- One `/register` call as issued by a worker: the query token presented and
the JSON payload fields. -/
structure RegOp where
  presented : Option String
  partition : Nat
  host : String
  port : Nat
deriving DecidableEq, Repr

/-- Run a sequence of `/register` calls against a coordinator. -/
def runRegisters (c : Coordinator) : List RegOp → Coordinator
  | [] => c
  | op :: rest => runRegisters (c.register op.presented op.partition op.host op.port).1 rest

/-- The `/register` POST request built by `PartitionServer._register`
(`partition_server.py`): target URL `coordinator_url + "/register"`, the query
token appended when `self.token` is truthy, and the JSON payload. -/
structure RegisterRequest where
  url : String
  token : Option String
  partition : Nat
  host : String
  port : Nat
deriving DecidableEq, Repr

/-- Build the request `PartitionServer._register` sends. -/
def build_register_request (coordinator_url : String) (token : Option String)
    (partition : Nat) (host : String) (port : Nat) : RegisterRequest :=
  { url := coordinator_url ++ "/register"
    token := if strTruthy token then token else none
    partition := partition
    host := host
    port := port }

/-- Lifecycle phases a worker passes through inside
`FlaskPartitionServer._launch_server`. -/
inductive WorkerPhase where
  | registered
  | serving
deriving DecidableEq, Repr

/-- `FlaskPartitionServer._launch_server`: after building the Flask app,
running the init hook and installing the control routes, it calls
`self._register()` and only then `app.run(...)`. `requests.post` inside
`_register` raises on network failure and the exception propagates, so the
server is never started in that case; the HTTP status of a completed
registration call is ignored. Returns the ordered phase trace. -/
def launch_server (post : RegisterRequest → Except Unit Nat)
    (coordinator_url : String) (token : Option String)
    (partition : Nat) (host : String) (port : Nat) :
    Except Unit (List WorkerPhase) :=
  match post (build_register_request coordinator_url token partition host port) with
  | Except.error e => Except.error e
  | Except.ok _ => Except.ok [WorkerPhase.registered, WorkerPhase.serving]

/-- `PartitionServer.__call__`, the entry point Spark invokes once per
partition: record the partition index, host and port, then `_launch_server`;
an exception raised while registering propagates out of the call. -/
def worker_run (post : RegisterRequest → Except Unit Nat)
    (coordinator_url : String) (token : Option String)
    (partition : Nat) (host : String) (port : Nat) :
    Except Unit (List WorkerPhase) :=
  launch_server post coordinator_url token partition host port

/-- Python errors distinguished by the embedding of `Cluster.stop`:
dereferencing `None` raises `AttributeError`; a guarded precondition failure
would be a distinct, deliberate error. -/
inductive PyError where
  | attributeError
  | preconditionError
deriving DecidableEq, Repr

/-- Driver-side state of a `Cluster` (`cluster.py`): the cluster token, the
owned coordinator (absent until first `start`), whether a map job was
dispatched, and the `_is_active` flag. -/
structure ClusterState where
  token : Option String
  coordinator : Option Coordinator
  has_map_job : Bool
  is_active : Bool
deriving DecidableEq, Repr

/-- `Cluster.__init__`: `coordinator = None`, `_is_active = False`,
`token = None`, no map job yet. -/
def ClusterState.init : ClusterState :=
  { token := none, coordinator := none, has_map_job := false, is_active := false }

/-- `Cluster.start`: returns immediately when `is_active()`; otherwise
generates a fresh token (`binascii.hexlify(os.urandom(10))`, supplied here as
a parameter), builds a `Coordinator` awaiting the RDD's partition count with
that token, dispatches the map job and sets `_is_active = True`. -/
def ClusterState.start (s : ClusterState) (fresh_token : String)
    (num_partitions : Nat) : ClusterState :=
  if s.is_active then s
  else
    { token := some fresh_token
      coordinator := some (Coordinator.init (some num_partitions) (some fresh_token))
      has_map_job := true
      is_active := true }

/-- `Cluster.stop`: runs `self.coordinator.shutdown_hosts()` followed by
`self.coordinator.shutdown()` and `self._is_active = False`. When the cluster
was never started, `self.coordinator` is `None` and the attribute access
raises `AttributeError` — there is no precondition guard. -/
def ClusterState.stop (s : ClusterState)
    (post : ShutdownRequest → Except Unit Nat) : Except PyError ClusterState :=
  match s.coordinator with
  | none => Except.error PyError.attributeError
  | some co =>
      Except.ok { s with coordinator := some (co.shutdown_hosts post), is_active := false }

/-! Helper lemmas about the dict model. -/

theorem pyEqOptNat_eq_true (a : Option Nat) (n : Nat) :
    pyEqOptNat a n = true ↔ a = some n := by
  cases a <;> simp [pyEqOptNat]

theorem dictGet_dictInsert_self (k : Nat) (v : Address) (l : List (Nat × Address)) :
    dictGet k (dictInsert k v l) = some v := by
  induction l with
  | nil => simp [dictInsert, dictGet]
  | cons hd tl ih =>
      obtain ⟨k1, v1⟩ := hd
      by_cases h : k = k1
      · simp [dictInsert, h, dictGet]
      · simp [dictInsert, h, dictGet, ih]

theorem dictGet_dictInsert_ne (k k1 : Nat) (v : Address) (l : List (Nat × Address))
    (h : k ≠ k1) : dictGet k (dictInsert k1 v l) = dictGet k l := by
  induction l with
  | nil => simp [dictInsert, dictGet, h]
  | cons hd tl ih =>
      obtain ⟨k2, v2⟩ := hd
      by_cases h2 : k1 = k2
      · subst h2
        simp [dictInsert, dictGet, h]
      · by_cases h3 : k = k2
        · simp [dictInsert, h2, dictGet, h3]
        · simp [dictInsert, h2, dictGet, h3, ih]

theorem length_dictInsert_fresh (k : Nat) (v : Address) (l : List (Nat × Address))
    (h : dictGet k l = none) : (dictInsert k v l).length = l.length + 1 := by
  induction l with
  | nil => simp [dictInsert]
  | cons hd tl ih =>
      obtain ⟨k1, v1⟩ := hd
      by_cases h1 : k = k1
      · simp [dictGet, h1] at h
      · simp [dictGet, h1] at h
        simp [dictInsert, h1, ih h]

theorem length_dictInsert_pos (k : Nat) (v : Address) (l : List (Nat × Address)) :
    0 < (dictInsert k v l).length := by
  cases l with
  | nil => simp [dictInsert]
  | cons hd tl =>
      obtain ⟨k1, v1⟩ := hd
      by_cases h : k = k1 <;> simp [dictInsert, h]

/-! Helper lemmas about `Coordinator.register`. -/

theorem register_rejected_eq (c : Coordinator) (p : Option String) (k : Nat)
    (h : String) (pt : Nat) (hbad : strTruthy c.token = true ∧ c.token ≠ p) :
    c.register p k h pt = (c, 403, none) := by
  unfold Coordinator.register
  rw [if_pos hbad]

theorem register_ok_eq (c : Coordinator) (p : Option String) (k : Nat)
    (h : String) (pt : Nat) (hok : ¬(strTruthy c.token = true ∧ c.token ≠ p)) :
    c.register p k h pt =
      ({ c with
          hosts := dictInsert k ⟨h, pt⟩ c.hosts
          full_cluster :=
            if pyEqOptNat c.await_partitions (dictInsert k ⟨h, pt⟩ c.hosts).length = true
              then some true else c.full_cluster },
        200,
        if c.register_callback_set then
          some { partition_ind := k, old_entry := dictGet k c.hosts, new_entry := ⟨h, pt⟩
                 full_cluster :=
                   if pyEqOptNat c.await_partitions (dictInsert k ⟨h, pt⟩ c.hosts).length = true
                     then some true else c.full_cluster }
        else none) := by
  unfold Coordinator.register
  rw [if_neg hok]

theorem register_preserves_token (c : Coordinator) (p : Option String) (k : Nat)
    (h : String) (pt : Nat) :
    (c.register p k h pt).1.token = c.token ∧
    (c.register p k h pt).1.await_partitions = c.await_partitions ∧
    (c.register p k h pt).1.register_callback_set = c.register_callback_set := by
  unfold Coordinator.register
  split <;> simp

/-! Helper lemmas about `Coordinator.shutdown_host` and the fan-out. -/

theorem shutdown_host_ok_fields (c : Coordinator) (post : ShutdownRequest → Except Unit Nat)
    (ind : Nat) (st : Coordinator) (req : Option ShutdownRequest)
    (hst : c.shutdown_host post ind = Except.ok (st, req)) :
    st.await_partitions = c.await_partitions ∧ st.token = c.token ∧
    st.full_cluster = c.full_cluster := by
  unfold Coordinator.shutdown_host at hst
  cases hget : dictGet ind c.hosts with
  | none =>
      rw [hget] at hst
      cases hst
      exact ⟨rfl, rfl, rfl⟩
  | some addr =>
      rw [hget] at hst
      simp only at hst
      cases hpost : post { host := addr.host, port := addr.port
                           token := if strTruthy c.token then c.token else none } with
      | error e => rw [hpost] at hst; cases hst
      | ok s =>
          rw [hpost] at hst
          cases hst
          exact ⟨rfl, rfl, rfl⟩

theorem fanout_preserves_await (post : ShutdownRequest → Except Unit Nat)
    (inds : List Nat) (c : Coordinator) :
    (inds.foldl (fun st ind =>
        match st.shutdown_host post ind with
        | Except.ok r => r.1
        | Except.error _ => st) c).await_partitions = c.await_partitions := by
  induction inds generalizing c with
  | nil => rfl
  | cons i rest ih =>
      rw [List.foldl_cons, ih]
      cases hstep : Coordinator.shutdown_host c post i with
      | error e => simp [hstep]
      | ok r =>
          simp only [hstep]
          exact (shutdown_host_ok_fields c post i r.1 r.2 (by rw [hstep])).1

theorem shutdown_hosts_hosts_empty (c : Coordinator)
    (post : ShutdownRequest → Except Unit Nat) :
    (c.shutdown_hosts post).hosts = [] := rfl

theorem shutdown_hosts_full_cluster_reset (c : Coordinator)
    (post : ShutdownRequest → Except Unit Nat) :
    (c.shutdown_hosts post).full_cluster =
      (if natOptTruthy c.await_partitions then some false else none) := by
  unfold Coordinator.shutdown_hosts
  simp [fanout_preserves_await]

theorem shutdown_host_some (c : Coordinator) (post : ShutdownRequest → Except Unit Nat)
    (ind : Nat) (addr : Address) (haddr : dictGet ind c.hosts = some addr) :
    c.shutdown_host post ind =
      match post { host := addr.host, port := addr.port
                   token := if strTruthy c.token then c.token else none } with
      | Except.error e => Except.error e
      | Except.ok _ =>
          Except.ok ({ c with hosts := dictRemove ind c.hosts },
            some { host := addr.host, port := addr.port
                   token := if strTruthy c.token then c.token else none }) := by
  unfold Coordinator.shutdown_host
  rw [haddr]

theorem register_full_cluster_await_zero (c : Coordinator) (p : Option String)
    (k : Nat) (h : String) (pt : Nat)
    (ha : c.await_partitions = some 0) (hf : c.full_cluster = none) :
    (c.register p k h pt).1.full_cluster = none := by
  by_cases hok : strTruthy c.token = true ∧ c.token ≠ p
  · rw [register_rejected_eq c p k h pt hok]
    exact hf
  · rw [register_ok_eq c p k h pt hok]
    have hne : pyEqOptNat c.await_partitions (dictInsert k ⟨h, pt⟩ c.hosts).length = false := by
      rw [ha]
      have hp := length_dictInsert_pos k ⟨h, pt⟩ c.hosts
      simp [pyEqOptNat]
      omega
    simp [hne, hf]

theorem runRegisters_await_zero (ops : List RegOp) (c : Coordinator)
    (ha : c.await_partitions = some 0) (hf : c.full_cluster = none) :
    (runRegisters c ops).full_cluster = none := by
  induction ops generalizing c with
  | nil => exact hf
  | cons op rest ih =>
      show (runRegisters (c.register op.presented op.partition op.host op.port).1
        rest).full_cluster = none
      refine ih _ ?_ (register_full_cluster_await_zero c _ _ _ _ ha hf)
      rw [(register_preserves_token c op.presented op.partition op.host op.port).2.1]
      exact ha

/-- Claim C2: with a configured (truthy) token, a register call presenting a
non-matching token returns 403 and leaves the whole coordinator state, the
registry and the callback delivery untouched; with no token configured, a
register call succeeds (status 200) whatever token is presented. -/
theorem register_token_auth (c : Coordinator) (p : Option String) (k : Nat)
    (h : String) (pt : Nat) :
    (strTruthy c.token = true → p ≠ c.token → c.register p k h pt = (c, 403, none)) ∧
    (strTruthy c.token = false → (c.register p k h pt).2.1 = 200) := by
  constructor
  · intro ht hne
    exact register_rejected_eq c p k h pt ⟨ht, Ne.symm hne⟩
  · intro hfalse
    have hok : ¬(strTruthy c.token = true ∧ c.token ≠ p) := by simp [hfalse]
    rw [register_ok_eq c p k h pt hok]

/-- Witness for C2 at a concrete coordinator with token "abc" and a mismatched
presented token "xyz". -/
theorem register_token_auth_witness :
    (Coordinator.init (some 3) (some "abc")).register (some "xyz") 0 "h" 80 =
      (Coordinator.init (some 3) (some "abc"), 403, none) :=
  (register_token_auth (Coordinator.init (some 3) (some "abc")) (some "xyz") 0 "h" 80).1
    (by decide) (by decide)

/-- Claim C6: for every coordinator state and every outcome of the fanned-out
shutdown posts, `shutdown_hosts` (shutdown_all) leaves an empty registry,
resets `full_cluster` to its initial value (`some false` when an expectation
was set and truthy, `none` otherwise), and a subsequent `/status` reports
zero current partitions. The fan-out iterates a snapshot of the keys taken
before any mutation, as in the source. -/
theorem shutdown_all_resets (c : Coordinator) (post : ShutdownRequest → Except Unit Nat) :
    (c.shutdown_hosts post).hosts = [] ∧
    (c.shutdown_hosts post).full_cluster =
      (if natOptTruthy c.await_partitions then some false else none) ∧
    (c.shutdown_hosts post).status.current_partitions = 0 := by
  refine ⟨shutdown_hosts_hosts_empty c post, shutdown_hosts_full_cluster_reset c post, ?_⟩
  simp [Coordinator.status, shutdown_hosts_hosts_empty]

/-- Claim C7: the worker entry point registers strictly before serving: a
successful run produces the phase trace `[registered, serving]`, and when the
registration post fails (coordinator unreachable) the error propagates out of
`worker_run` and no serving phase is ever entered. -/
theorem registration_precedes_serving (post : RegisterRequest → Except Unit Nat)
    (cu : String) (t : Option String) (k : Nat) (h : String) (pt : Nat) :
    (∀ e, post (build_register_request cu t k h pt) = Except.error e →
      worker_run post cu t k h pt = Except.error e) ∧
    (∀ tr, worker_run post cu t k h pt = Except.ok tr →
      tr = [WorkerPhase.registered, WorkerPhase.serving]) := by
  constructor
  · intro e he
    unfold worker_run launch_server
    rw [he]
  · intro tr htr
    unfold worker_run launch_server at htr
    cases hpost : post (build_register_request cu t k h pt) with
    | error e => rw [hpost] at htr; cases htr
    | ok s => rw [hpost] at htr; cases htr; rfl

/-- Witness for C7: with an unreachable coordinator the registration error
propagates out of the run entry point. -/
theorem registration_precedes_serving_witness :
    worker_run (fun _ => Except.error ()) "http://c" none 0 "h" 80 = Except.error () :=
  (registration_precedes_serving (fun _ => Except.error ()) "http://c" none 0 "h" 80).1
    () rfl

/-- Claim C8: `Cluster.start` on an already-active cluster returns immediately
leaving the whole orchestrator state (token, coordinator, dispatch, active
flag) unchanged. -/
theorem start_noop_when_active (s : ClusterState) (ftok : String) (n : Nat)
    (h : s.is_active = true) : s.start ftok n = s := by
  unfold ClusterState.start
  rw [if_pos h]

/-- Witness for C8: starting a just-started (active) cluster again changes
nothing. -/
theorem start_noop_when_active_witness :
    (ClusterState.init.start "tok" 3).start "tok2" 5 = ClusterState.init.start "tok" 3 :=
  start_noop_when_active (ClusterState.init.start "tok" 3) "tok2" 5 rfl

/-- Counterexample to claim C9: stopping a never-started cluster does not fail
with a precondition error; it raises `AttributeError` by dereferencing the
absent (`None`) coordinator, and the two errors are distinct. -/
theorem stop_never_started_counterexample :
    ClusterState.init.stop (fun _ => Except.ok 200) = Except.error PyError.attributeError ∧
    PyError.attributeError ≠ PyError.preconditionError :=
  ⟨rfl, by decide⟩

/-- Claim C9 as amended: stopping a cluster whose coordinator was never
created fails fast, but by raising `AttributeError` from dereferencing the
absent coordinator — there is no guarded precondition check. -/
theorem stop_never_started_amended (s : ClusterState)
    (post : ShutdownRequest → Except Unit Nat) (h : s.coordinator = none) :
    s.stop post = Except.error PyError.attributeError := by
  unfold ClusterState.stop
  rw [h]

/-- Witness for the amended C9 at the freshly constructed cluster. -/
theorem stop_never_started_amended_witness :
    ClusterState.init.stop (fun _ => Except.error ()) = Except.error PyError.attributeError :=
  stop_never_started_amended ClusterState.init (fun _ => Except.error ()) rfl

/-- Claim C10: a coordinator created with `await_partitions = 0` behaves as if
no expectation was set: `full_cluster` is initialized to `none` (Python
`None`, not `False`), and it still equals `none` — so in particular is never
`some true` — after any sequence of registrations. -/
theorem await_zero_like_unset (t : Option String) (ops : List RegOp) :
    (Coordinator.init (some 0) t).full_cluster = none ∧
    (runRegisters (Coordinator.init (some 0) t) ops).full_cluster = none :=
  ⟨rfl, runRegisters_await_zero ops (Coordinator.init (some 0) t) rfl rfl⟩

/-- Claim C1: the `full_cluster` flag becomes true at a register call exactly
when the call succeeds and the number of registered partitions afterwards
equals `await_partitions` (hence only when an expectation was set); a
registration never resets a true flag; `shutdown_host` never changes the
flag; and `shutdown_hosts` restores it to the initial value a fresh
coordinator with the same expectation would have. -/
theorem full_cluster_flag_dynamics (c : Coordinator) (p : Option String)
    (k : Nat) (h : String) (pt : Nat) (post : ShutdownRequest → Except Unit Nat) :
    (((c.register p k h pt).1.full_cluster = some true ∧ c.full_cluster ≠ some true) ↔
      ((c.register p k h pt).2.1 = 200 ∧
        c.await_partitions = some (c.register p k h pt).1.hosts.length ∧
        c.full_cluster ≠ some true)) ∧
    (c.full_cluster = some true → (c.register p k h pt).1.full_cluster = some true) ∧
    (∀ ind st req, c.shutdown_host post ind = Except.ok (st, req) →
      st.full_cluster = c.full_cluster) ∧
    (c.shutdown_hosts post).full_cluster =
      (Coordinator.init c.await_partitions c.token).full_cluster := by
  refine ⟨?_, ?_, ?_, ?_⟩
  · by_cases hok : strTruthy c.token = true ∧ c.token ≠ p
    · rw [register_rejected_eq c p k h pt hok]
      simp
    · rw [register_ok_eq c p k h pt hok]
      by_cases hfull : c.await_partitions = some (dictInsert k ⟨h, pt⟩ c.hosts).length
      · simp [pyEqOptNat_eq_true, hfull]
      · simp [pyEqOptNat_eq_true, hfull]
  · intro htrue
    by_cases hok : strTruthy c.token = true ∧ c.token ≠ p
    · rw [register_rejected_eq c p k h pt hok]
      exact htrue
    · rw [register_ok_eq c p k h pt hok]
      by_cases hfull : pyEqOptNat c.await_partitions (dictInsert k ⟨h, pt⟩ c.hosts).length = true
      · simp [hfull]
      · simp [hfull, htrue]
  · intro ind st req hst
    exact (shutdown_host_ok_fields c post ind st req hst).2.2
  · rw [shutdown_hosts_full_cluster_reset]
    rfl

/-- Witness for C1: a coordinator awaiting one partition has its flag raised
by the registration that reaches the expected count. -/
theorem full_cluster_flag_dynamics_witness :
    ((Coordinator.init (some 1) none).register none 0 "h" 80).1.full_cluster = some true :=
  (((full_cluster_flag_dynamics (Coordinator.init (some 1) none) none 0 "h" 80
      (fun _ => Except.ok 200)).1).mpr ⟨rfl, rfl, by decide⟩).1

theorem runRegisters_length_aux (ops : List RegOp) (c : Coordinator)
    (hnodup : (ops.map RegOp.partition).Nodup)
    (hfresh : ∀ op ∈ ops, dictGet op.partition c.hosts = none)
    (hok : ∀ op ∈ ops, ¬(strTruthy c.token = true ∧ c.token ≠ op.presented)) :
    (runRegisters c ops).hosts.length = c.hosts.length + ops.length := by
  induction ops generalizing c with
  | nil => simp [runRegisters]
  | cons op rest ih =>
      have hokh := hok op (List.mem_cons_self op rest)
      have hfh := hfresh op (List.mem_cons_self op rest)
      have hnd : op.partition ∉ rest.map RegOp.partition ∧
          (rest.map RegOp.partition).Nodup := by
        rw [List.map_cons, List.nodup_cons] at hnodup
        exact hnodup
      set c1 := (c.register op.presented op.partition op.host op.port).1 with hc1
      have htok : c1.token = c.token :=
        (register_preserves_token c op.presented op.partition op.host op.port).1
      have hhosts : c1.hosts = dictInsert op.partition ⟨op.host, op.port⟩ c.hosts := by
        rw [hc1, register_ok_eq c op.presented op.partition op.host op.port hokh]
      have hfresh1 : ∀ op2 ∈ rest, dictGet op2.partition c1.hosts = none := by
        intro op2 h2
        rw [hhosts, dictGet_dictInsert_ne]
        · exact hfresh op2 (List.mem_cons_of_mem op h2)
        · intro heq
          exact hnd.1 (heq ▸ List.mem_map_of_mem RegOp.partition h2)
      have hok1 : ∀ op2 ∈ rest, ¬(strTruthy c1.token = true ∧ c1.token ≠ op2.presented) := by
        intro op2 h2
        rw [htok]
        exact hok op2 (List.mem_cons_of_mem op h2)
      have hrec := ih c1 hnd.2 hfresh1 hok1
      have hlen1 : c1.hosts.length = c.hosts.length + 1 := by
        rw [hhosts]
        exact length_dictInsert_fresh _ _ _ hfh
      show (runRegisters c1 rest).hosts.length = c.hosts.length + (op :: rest).length
      rw [hrec, hlen1, List.length_cons]
      omega

/-- Claim C3: starting from a fresh coordinator, any sequence of successful
registrations with pairwise distinct partition indices makes
`get_status().current_partitions` equal to the number of indices registered
so far. -/
theorem status_counts_distinct (a : Option Nat) (t : Option String) (ops : List RegOp)
    (hnodup : (ops.map RegOp.partition).Nodup)
    (hok : ∀ op ∈ ops, ¬(strTruthy t = true ∧ t ≠ op.presented)) :
    (runRegisters (Coordinator.init a t) ops).status.current_partitions = ops.length := by
  have h := runRegisters_length_aux ops (Coordinator.init a t) hnodup
    (fun op _ => rfl) hok
  simpa [Coordinator.status, Coordinator.init] using h

/-- Witness for C3: two distinct registrations yield a current count of 2. -/
theorem status_counts_distinct_witness :
    (runRegisters (Coordinator.init (some 2) none)
      [⟨none, 0, "h0", 80⟩, ⟨none, 1, "h1", 81⟩]).status.current_partitions = 2 :=
  status_counts_distinct (some 2) none
    [⟨none, 0, "h0", 80⟩, ⟨none, 1, "h1", 81⟩] (by decide) (by decide)

/-- Claim C4: a successful re-registration of an already-present partition
index overwrites its stored address with the new host, port pair, and when the
registration callback is set it is handed exactly the event built after the
mutation: the partition index, the prior address, the new address, and the
value of `full_cluster` in the post-registration state. -/
theorem reregister_overwrites_event (c : Coordinator) (p : Option String) (k : Nat)
    (h : String) (pt : Nat) (old : Address)
    (hok : ¬(strTruthy c.token = true ∧ c.token ≠ p))
    (hold : dictGet k c.hosts = some old) :
    dictGet k (c.register p k h pt).1.hosts = some ⟨h, pt⟩ ∧
    (c.register p k h pt).2.1 = 200 ∧
    (c.register_callback_set = true →
      (c.register p k h pt).2.2 =
        some { partition_ind := k, old_entry := some old, new_entry := ⟨h, pt⟩
               full_cluster := (c.register p k h pt).1.full_cluster }) := by
  rw [register_ok_eq c p k h pt hok]
  refine ⟨dictGet_dictInsert_self k ⟨h, pt⟩ c.hosts, rfl, ?_⟩
  intro hcb
  simp [hcb, hold]

/-- Witness for C4 at a coordinator with a callback set and partition 0
already registered at "h0":80, re-registered at "h1":81. -/
theorem reregister_overwrites_event_witness :
    dictGet 0 (Coordinator.register
      { await_partitions := some 2, token := none, hosts := [(0, ⟨"h0", 80⟩)]
        full_cluster := some false, register_callback_set := true }
      none 0 "h1" 81).1.hosts = some ⟨"h1", 81⟩ :=
  (reregister_overwrites_event
    { await_partitions := some 2, token := none, hosts := [(0, ⟨"h0", 80⟩)]
      full_cluster := some false, register_callback_set := true }
    none 0 "h1" 81 ⟨"h0", 80⟩ (by decide) (by decide)).1

/-- Counterexample to claim C5: when the shutdown post raises (network error),
`shutdown_host` propagates the exception before `del self.hosts[ind]` runs, so
the entry is not removed — contrary to removal "regardless of whether the
remote call succeeded". -/
theorem shutdown_one_counterexample :
    Coordinator.shutdown_host
      { await_partitions := none, token := none, hosts := [(0, ⟨"h0", 80⟩)]
        full_cluster := none, register_callback_set := false }
      (fun _ => Except.error ()) 0 = Except.error () := rfl

/-- Claim C5 as amended: `shutdown_host` is a no-op for an unregistered index;
for a registered index it posts a shutdown request to the registered address
carrying the token exactly when one is configured, and it removes the entry
whenever the post completes — regardless of the HTTP status — but a raising
(network-error) post propagates before the removal, leaving the entry in
place. -/
theorem shutdown_one_amended (c : Coordinator) (post : ShutdownRequest → Except Unit Nat)
    (ind : Nat) :
    (dictGet ind c.hosts = none → c.shutdown_host post ind = Except.ok (c, none)) ∧
    (∀ addr, dictGet ind c.hosts = some addr →
      ((∀ s, post { host := addr.host, port := addr.port
                    token := if strTruthy c.token then c.token else none } = Except.ok s →
          c.shutdown_host post ind =
            Except.ok ({ c with hosts := dictRemove ind c.hosts },
              some { host := addr.host, port := addr.port
                     token := if strTruthy c.token then c.token else none })) ∧
        (∀ e, post { host := addr.host, port := addr.port
                     token := if strTruthy c.token then c.token else none } = Except.error e →
          c.shutdown_host post ind = Except.error e))) := by
  constructor
  · intro hnone
    unfold Coordinator.shutdown_host
    rw [hnone]
  · intro addr haddr
    constructor
    · intro s hs
      rw [shutdown_host_some c post ind addr haddr, hs]
    · intro e he
      rw [shutdown_host_some c post ind addr haddr, he]

/-- Witness for the amended C5: a completed post (status 200) removes the
entry for partition 0. -/
theorem shutdown_one_amended_witness :
    Coordinator.shutdown_host
      { await_partitions := none, token := some "abc", hosts := [(0, ⟨"h0", 80⟩)]
        full_cluster := none, register_callback_set := false }
      (fun _ => Except.ok 200) 0 =
      Except.ok
        ({ await_partitions := none, token := some "abc", hosts := []
           full_cluster := none, register_callback_set := false },
          some { host := "h0", port := 80, token := some "abc" }) := by
  have h := ((shutdown_one_amended
    { await_partitions := none, token := some "abc", hosts := [(0, ⟨"h0", 80⟩)]
      full_cluster := none, register_callback_set := false }
    (fun _ => Except.ok 200) 0).2 ⟨"h0", 80⟩ (by decide)).1 200 rfl
  simpa [dictRemove, strTruthy] using h

end SparkPartitionServer
